import Mathlib

/-!
Shallow embedding of the session lifecycle manager of typingmind-mcp
(source: src/unnamed/part_001, the Express server module).

The registry of active MCP clients is the module-level Map named clients
(line 15).  We model it as an association list from client id to a
Session Entry.  The opaque Protocol Client handle is abstracted by the
observable behaviour the lifecycle code depends on: whether its close()
rejects (and with which message), and how its connect() settles.  JS
async methods never throw synchronously; a rejected promise that is not
awaited is simply lost, which we model as the failure being ignored.

Times are Nat milliseconds.  A missing command field and an empty-string
command are identified (both are falsy at line 24); absent args and env
take the destructuring defaults of line 22 (empty list / empty mapping).
-/

/-- Session config: the command, args, env triple destructured at line 22
of part_001. env is the entry list of the JS object (keys unique). -/
structure Config where
  command : String
  args : List String
  env : List (String × String)
deriving Repr, DecidableEq

/-- How a fresh client's connect() settles: never, or at time t (ms after
the connect start) with success (err = none) or rejection message. -/
inductive ConnectBehavior where
  | never : ConnectBehavior
  | settles (err : Option String) (t : Nat) : ConnectBehavior
deriving Repr, DecidableEq

/-- Observable behaviour of the opaque Protocol Client created in
startClient: how connect() settles, whether a later close() rejects
(some message) or resolves (none), and the outcome of a callTool. -/
structure ClientBehavior where
  connect : ConnectBehavior
  closeErr : Option String
  toolErr : Option String
  toolPayload : String
deriving Repr, DecidableEq

/-- Transport record built by the StdioClientTransport constructor call at
lines 45-56; env none models passing undefined. -/
structure Transport where
  command : String
  args : List String
  env : Option (List (String × String))
deriving Repr, DecidableEq

/-- Session Entry: the object stored into the clients map at lines
109-118 of part_001 (the live client handle is abstracted by its
behaviour fields). -/
structure Entry where
  id : String
  closeErr : Option String
  toolErr : Option String
  toolPayload : String
  transport : Transport
  command : String
  args : List String
  env : List (String × String)
  config : Config
  createdAt : Nat
deriving Repr, DecidableEq

/-- Session Registry: the module-level clients Map (line 15). -/
abbrev Registry := List (String × Entry)

/-- Lookup in the registry: clients.get(id) / clients.has(id). -/
def rlookup (id : String) : Registry → Option Entry
  | [] => none
  | p :: ps => if p.1 = id then some p.2 else rlookup id ps

/-- Map.delete: remove the binding for id. -/
def rerase (id : String) : Registry → Registry
  | [] => []
  | p :: ps => if p.1 = id then rerase id ps else p :: rerase id ps

/-- Map.set: replace the binding in place when the key is present,
otherwise append at the end. -/
def rset (id : String) (e : Entry) : Registry → Registry
  | [] => [(id, e)]
  | p :: ps => if p.1 = id then (id, e) :: ps else p :: rset id e ps

/-- Lookup by key in an env entry list (first binding wins, as in a JS
object where keys are unique). -/
def envLookup (k : String) : List (String × String) → Option String
  | [] => none
  | p :: ps => if p.1 = k then some p.2 else envLookup k ps

/-- Spread merge of two env objects: in JS object spread the second
operand's keys override the first's.  Result lookup is: caller env first,
default env otherwise. -/
def mergeEnv (d e : List (String × String)) : List (String × String) :=
  (d.filter (fun p => (envLookup p.1 e).isNone)) ++ e

/-- Insert a pair into a key-sorted env list (helper for canonEnv). -/
def envInsert (p : String × String) : List (String × String) → List (String × String)
  | [] => [p]
  | q :: qs => if p.1 < q.1 then p :: q :: qs else q :: envInsert p qs

/-- Canonical (key-sorted) form of an env entry list, mirroring that
json-stable-stringify serialises object keys in sorted order. -/
def canonEnv : List (String × String) → List (String × String)
  | [] => []
  | p :: ps => envInsert p (canonEnv ps)

/-- Structural config equality as computed by comparing
json-stable-stringify outputs (line 210): command and args compare
directly (args order-sensitive), env compares up to key order. -/
def configEq (a b : Config) : Bool :=
  decide (a.command = b.command ∧ a.args = b.args ∧ canonEnv a.env = canonEnv b.env)

/-- Timeout bound of the connect race, line 84: 300000 ms (five minutes). -/
def CONNECT_TIMEOUT_MS : Nat := 300000

/-- Failures startClient can throw: the missing-command error (line 25),
the connect rejection (rethrown at line 105), and the timeout error of
line 83 carrying elapsed time, client id, command and args. -/
inductive StartError where
  | commandRequired : StartError
  | connectFailed (msg : String) : StartError
  | connectTimeout (elapsedMs : Nat) (clientId : String)
      (command : String) (args : List String) : StartError
deriving Repr, DecidableEq

/-- Message carried by each StartError, as built in the source. -/
def StartError.message : StartError → String
  | .commandRequired => "Command is required"
  | .connectFailed m => m
  | .connectTimeout elapsed clientId command args =>
      "Connection timeout after " ++ toString elapsed ++ "ms. Client: " ++
        clientId ++ ", Command: " ++ command ++ " " ++ String.intercalate " " args

/-- Success payload of startClient (lines 123-126). -/
structure StartOk where
  id : String
  message : String
deriving Repr, DecidableEq

/-- Externally visible actions of the lifecycle code that the claims
quantify over: a close() call on the client registered under id (ok
records whether that close resolves), a connect attempt for a freshly
created client, and a forced kill of the spawned process (no code path
of the source emits one). -/
inductive Event where
  | closeCalled (id : String) (ok : Bool) : Event
  | connectAttempt (id : String) : Event
  | killProcess (id : String) : Event
deriving Repr, DecidableEq

/-- Transport construction, lines 45-56: env is passed as undefined when
the caller env object has no values, and as default environment spread
with the caller env otherwise. -/
def mkTransport (config : Config) (defaultEnv : List (String × String)) : Transport :=
  { command := config.command
    args := config.args
    env := if config.env.length > 0 then some (mergeEnv defaultEnv config.env) else none }

/-- Outcome of the Promise.race at lines 88-91 between client.connect and
the 300000 ms timer: inl is connect settling first (at t, with err),
inr is the timer firing first with the elapsed time it reports. -/
def raceConnect (cb : ConnectBehavior) : (Option String × Nat) ⊕ Nat :=
  match cb with
  | .never => Sum.inr CONNECT_TIMEOUT_MS
  | .settles err t =>
      if t < CONNECT_TIMEOUT_MS then Sum.inl (err, t) else Sum.inr CONNECT_TIMEOUT_MS

/-- Entry stored into the clients map on successful connect, lines
109-118 of part_001: the original config is retained verbatim for
restart, and command, args, env are also stored individually. -/
def mkEntry (clientId : String) (config : Config)
    (defaultEnv : List (String × String)) (fresh : ClientBehavior) (now : Nat) : Entry :=
  { id := clientId
    closeErr := fresh.closeErr
    toolErr := fresh.toolErr
    toolPayload := fresh.toolPayload
    transport := mkTransport config defaultEnv
    command := config.command
    args := config.args
    env := config.env
    config := config
    createdAt := now }

/-- startClient (part_001 lines 18-127): validate command, build the
transport and client, race connect against the timer, and only on
successful connect store the entry (lines 109-118) and return the
success payload.  fresh is the behaviour of the client created at line
62; now is the wall clock at entry (used for createdAt). -/
def startClient (clientId : String) (config : Config)
    (defaultEnv : List (String × String)) (fresh : ClientBehavior) (now : Nat)
    (reg : Registry) : Except StartError StartOk × Registry × List Event :=
  if config.command = "" then
    (Except.error StartError.commandRequired, reg, [])
  else
    match raceConnect fresh.connect with
    | Sum.inr elapsed =>
        (Except.error (StartError.connectTimeout elapsed clientId config.command config.args),
          reg, [Event.connectAttempt clientId])
    | Sum.inl (some m, _) =>
        (Except.error (StartError.connectFailed m), reg, [Event.connectAttempt clientId])
    | Sum.inl (none, _) =>
        (Except.ok { id := clientId, message := "MCP client started successfully" },
          rset clientId (mkEntry clientId config defaultEnv fresh now) reg,
          [Event.connectAttempt clientId])

/-- Per-id outcome inside the /start batch handler: the bare return of
line 212 (nothing pushed), a success pushed at line 219, or an error
entry pushed at lines 222-225. -/
inductive StartOutcome where
  | skipped : StartOutcome
  | ok (r : StartOk) : StartOutcome
  | err (id : String) (msg : String) : StartOutcome
deriving Repr, DecidableEq

/-- One iteration of the /start handler's map callback (lines 205-227):
if an entry exists and its stored config stable-stringifies identically,
return with no effect; if it exists with a different config, fire
client.close() without awaiting it (a rejection is ignored) and fall
through to startClient; otherwise just startClient.  Failures of
startClient are caught and turned into an error entry. -/
def startOne (defaultEnv : List (String × String)) (now : Nat)
    (serverId : String) (config : Config) (fresh : ClientBehavior)
    (reg : Registry) : StartOutcome × Registry × List Event :=
  let run := fun (pre : List Event) =>
    match startClient serverId config defaultEnv fresh now reg with
    | (Except.ok r, reg', evs) => (StartOutcome.ok r, reg', pre ++ evs)
    | (Except.error e, reg', evs) =>
        (StartOutcome.err serverId ("Failed to initialize: " ++ e.message), reg', pre ++ evs)
  match rlookup serverId reg with
  | some e =>
      if configEq e.config config then
        (StartOutcome.skipped, reg, [])
      else
        run [Event.closeCalled serverId e.closeErr.isNone]
  | none => run []

/-- Aggregate of the /start handler (lines 198-201). -/
structure BatchResults where
  success : List StartOk
  errors : List (String × String)
deriving Repr, DecidableEq

/-- The /start handler's processing of a batch (lines 204-231): every
(id, config) pair is processed by its own callback with its own
try/catch; successes and failures are collected, never thrown.  The
source runs the callbacks as interleaved cooperative tasks and pushes
results in completion order, with no ordering guarantee among ids; this
sequentialisation is one admissible schedule. -/
def startBatch (defaultEnv : List (String × String)) (now : Nat) :
    List (String × Config × ClientBehavior) → Registry →
      BatchResults × Registry × List Event
  | [], reg => ({ success := [], errors := [] }, reg, [])
  | item :: rest, reg =>
      let step := startOne defaultEnv now item.1 item.2.1 item.2.2 reg
      let tail := startBatch defaultEnv now rest step.2.1
      match step.1 with
      | StartOutcome.skipped => (tail.1, tail.2.1, step.2.2 ++ tail.2.2)
      | StartOutcome.ok r =>
          ({ tail.1 with success := r :: tail.1.success }, tail.2.1, step.2.2 ++ tail.2.2)
      | StartOutcome.err i m =>
          ({ tail.1 with errors := (i, m) :: tail.1.errors }, tail.2.1, step.2.2 ++ tail.2.2)

/-- Result of the DELETE /clients/:id handler (lines 403-424). -/
inductive StopResult where
  | notFound : StopResult
  | ok : StopResult
  | closeFailed (msg : String) : StopResult
deriving Repr, DecidableEq

/-- stopSession, the DELETE /clients/:id handler (lines 403-424): 404
when the id is unknown; otherwise await close() and, only if it
resolved, delete the entry; a rejected close is caught at line 417 and
reported, with the delete of line 414 never reached. -/
def stopSession (reg : Registry) (id : String) : Registry × StopResult × List Event :=
  match rlookup id reg with
  | none => (reg, StopResult.notFound, [])
  | some e =>
      match e.closeErr with
      | none => (rerase id reg, StopResult.ok, [Event.closeCalled id true])
      | some m => (reg, StopResult.closeFailed m, [Event.closeCalled id false])

/-- Result of the POST /restart/:id handler (lines 253-287). -/
inductive RestartResult where
  | notFound : RestartResult
  | ok (r : StartOk) : RestartResult
  | failed (msg : String) : RestartResult
deriving Repr, DecidableEq

/-- restartSession, the POST /restart/:id handler (lines 253-287): 404
when the id is unknown; otherwise, inside one try block, await close()
(a rejection jumps to the catch of line 280, leaving the entry in
place), then delete the entry and run startClient with the stored
original config; any startClient failure is also caught at line 280,
after the delete. -/
def restartSession (defaultEnv : List (String × String)) (now : Nat)
    (fresh : ClientBehavior) (reg : Registry) (id : String) :
    Registry × RestartResult × List Event :=
  match rlookup id reg with
  | none => (reg, RestartResult.notFound, [])
  | some e =>
      match e.closeErr with
      | some m => (reg, RestartResult.failed m, [Event.closeCalled id false])
      | none =>
          let reg1 := rerase id reg
          match startClient id e.config defaultEnv fresh now reg1 with
          | (Except.ok r, reg2, evs) =>
              (reg2, RestartResult.ok r, Event.closeCalled id true :: evs)
          | (Except.error err, reg2, evs) =>
              (reg2, RestartResult.failed err.message, Event.closeCalled id true :: evs)

/-- Result of the POST /clients/:id/call_tools handler (lines 373-400). -/
inductive InvokeResult where
  | nameRequired : InvokeResult
  | notFound : InvokeResult
  | ok (payload : String) : InvokeResult
  | failed (msg : String) : InvokeResult
deriving Repr, DecidableEq

/-- invokeTool, the POST /clients/:id/call_tools handler (lines 373-400):
400 when no tool name is given, 404 when the id is unknown, otherwise
the opaque client's callTool outcome (the handler never touches the
registry beyond the lookup, so no registry is returned). -/
def invokeTool (reg : Registry) (id : String) (name : String) : InvokeResult :=
  if name = "" then
    InvokeResult.nameRequired
  else
    match rlookup id reg with
    | none => InvokeResult.notFound
    | some e =>
        match e.toolErr with
        | some m => InvokeResult.failed m
        | none => InvokeResult.ok e.toolPayload


/-- Test whether an event is a close() call. -/
def Event.isClose : Event → Bool
  | Event.closeCalled _ _ => true
  | _ => false

/-- A fresh client behaviour under which the connect race succeeds:
connect resolves before the timer fires. -/
def connectOk (cb : ClientBehavior) : Bool :=
  match cb.connect with
  | ConnectBehavior.settles none t => decide (t < CONNECT_TIMEOUT_MS)
  | _ => false

/-! Concrete sample data evaluated by the closed witness theorems. -/

def demoConfigA : Config :=
  { command := "npx", args := ["-y", "server-a"], env := [("A", "1"), ("B", "2")] }

def demoConfigAperm : Config :=
  { command := "npx", args := ["-y", "server-a"], env := [("B", "2"), ("A", "1")] }

def demoConfigB : Config :=
  { command := "npx", args := ["server-b"], env := [] }

def demoCfgEmpty : Config :=
  { command := "", args := [], env := [] }

def demoGood : ClientBehavior :=
  { connect := ConnectBehavior.settles none 1200, closeErr := none,
    toolErr := none, toolPayload := "result" }

def demoBadClose : ClientBehavior :=
  { connect := ConnectBehavior.settles none 1200, closeErr := some "close boom",
    toolErr := none, toolPayload := "result" }

def demoNever : ClientBehavior :=
  { connect := ConnectBehavior.never, closeErr := none,
    toolErr := none, toolPayload := "result" }

def demoEntryBadClose : Entry := mkEntry "a" demoConfigA [] demoBadClose 0

def demoEntryGood : Entry := mkEntry "a" demoConfigA [] demoGood 0

def demoReg : Registry := [("a", demoEntryBadClose)]

def demoRegGood : Registry := [("a", demoEntryGood)]

def demoBatch : List (String × Config × ClientBehavior) :=
  [("a", demoConfigA, demoGood), ("bad", demoCfgEmpty, demoGood), ("c", demoConfigB, demoGood)]

def demoBatch2 : List (String × Config × ClientBehavior) :=
  [("a", demoConfigAperm, demoGood), ("c", demoConfigB, demoGood)]

/-! Helper lemmas about the registry operations. -/

theorem rlookup_rset_self (id : String) (e : Entry) (r : Registry) :
    rlookup id (rset id e r) = some e := by
  induction r with
  | nil => simp [rset, rlookup]
  | cons p ps ih =>
      by_cases h : p.1 = id
      · simp [rset, h, rlookup]
      · simp [rset, h, rlookup, ih]

theorem rlookup_rset_ne (k id : String) (e : Entry) (r : Registry) (h : k ≠ id) :
    rlookup k (rset id e r) = rlookup k r := by
  induction r with
  | nil => simp [rset, rlookup, Ne.symm h]
  | cons p ps ih =>
      by_cases hp : p.1 = id
      · simp [rset, hp, rlookup, Ne.symm h]
      · simp [rset, hp, rlookup, ih]

theorem rlookup_rerase_self (id : String) (r : Registry) :
    rlookup id (rerase id r) = none := by
  induction r with
  | nil => simp [rerase, rlookup]
  | cons p ps ih =>
      by_cases h : p.1 = id
      · simp [rerase, h, ih]
      · simp [rerase, h, rlookup, ih]

theorem rlookup_rerase_ne (k id : String) (r : Registry) (h : k ≠ id) :
    rlookup k (rerase id r) = rlookup k r := by
  induction r with
  | nil => simp [rerase]
  | cons p ps ih =>
      by_cases hp : p.1 = id
      · simp [rerase, hp, rlookup, Ne.symm h, ih]
      · simp [rerase, hp, rlookup, ih]

/-! Helper lemmas about environment merging. -/

theorem envLookup_append (k : String) (l1 l2 : List (String × String)) :
    envLookup k (l1 ++ l2) =
      match envLookup k l1 with
      | some v => some v
      | none => envLookup k l2 := by
  induction l1 with
  | nil => simp [envLookup]
  | cons p ps ih =>
      by_cases hp : p.1 = k
      · simp [envLookup, hp]
      · simp [envLookup, hp, ih]

theorem envLookup_filter_of_mem (k : String) (v : String)
    (d e : List (String × String)) (h : envLookup k e = some v) :
    envLookup k (d.filter (fun p => (envLookup p.1 e).isNone)) = none := by
  induction d with
  | nil => simp [envLookup]
  | cons p ps ih =>
      by_cases hp : p.1 = k
      · subst hp
        simp [List.filter, h, ih]
      · by_cases hkeep : (envLookup p.1 e).isNone
        · simp [List.filter, hkeep, envLookup, hp, ih]
        · simp [List.filter, hkeep, ih]

theorem envLookup_filter_of_not_mem (k : String)
    (d e : List (String × String)) (h : envLookup k e = none) :
    envLookup k (d.filter (fun p => (envLookup p.1 e).isNone)) = envLookup k d := by
  induction d with
  | nil => simp
  | cons p ps ih =>
      by_cases hp : p.1 = k
      · subst hp
        simp [List.filter, h, envLookup, ih]
      · by_cases hkeep : (envLookup p.1 e).isNone
        · simp [List.filter, hkeep, envLookup, hp, ih]
        · simp [List.filter, hkeep, envLookup, hp, ih]

/-- Lookup in the spread merge: the caller-supplied env overrides the
default environment key by key. -/
theorem envLookup_mergeEnv (k : String) (d e : List (String × String)) :
    envLookup k (mergeEnv d e) =
      match envLookup k e with
      | some v => some v
      | none => envLookup k d := by
  unfold mergeEnv
  rw [envLookup_append]
  cases he : envLookup k e with
  | some v => simp [envLookup_filter_of_mem k v d e he]
  | none =>
      simp [envLookup_filter_of_not_mem k d e he]
      cases envLookup k d <;> rfl

/-! Characterisation of startClient. -/

theorem startClient_ok_eq (clientId : String) (cfg : Config)
    (d : List (String × String)) (cb : ClientBehavior) (now : Nat) (reg : Registry)
    (h1 : cfg.command ≠ "") (h2 : connectOk cb = true) :
    startClient clientId cfg d cb now reg =
      (Except.ok { id := clientId, message := "MCP client started successfully" },
       rset clientId (mkEntry clientId cfg d cb now) reg,
       [Event.connectAttempt clientId]) := by
  unfold connectOk at h2
  cases hc : cb.connect with
  | never => rw [hc] at h2; cases h2
  | settles errOpt t =>
      cases errOpt with
      | some m => rw [hc] at h2; cases h2
      | none =>
          rw [hc] at h2
          simp only [decide_eq_true_eq] at h2
          simp [startClient, h1, raceConnect, hc, h2]

theorem startClient_cases (clientId : String) (cfg : Config)
    (d : List (String × String)) (cb : ClientBehavior) (now : Nat) (reg : Registry) :
    startClient clientId cfg d cb now reg =
      (Except.ok { id := clientId, message := "MCP client started successfully" },
       rset clientId (mkEntry clientId cfg d cb now) reg,
       [Event.connectAttempt clientId]) ∨
    ∃ err evs, startClient clientId cfg d cb now reg = (Except.error err, reg, evs) := by
  by_cases h : cfg.command = ""
  · exact Or.inr ⟨StartError.commandRequired, [], by simp [startClient, h]⟩
  · cases hc : cb.connect with
    | never =>
        exact Or.inr ⟨StartError.connectTimeout CONNECT_TIMEOUT_MS clientId cfg.command cfg.args,
          [Event.connectAttempt clientId], by simp [startClient, h, raceConnect, hc]⟩
    | settles errOpt t =>
        by_cases ht : t < CONNECT_TIMEOUT_MS
        · cases errOpt with
          | some m =>
              exact Or.inr ⟨StartError.connectFailed m, [Event.connectAttempt clientId],
                by simp [startClient, h, raceConnect, hc, ht]⟩
          | none => exact Or.inl (by simp [startClient, h, raceConnect, hc, ht])
        · exact Or.inr ⟨StartError.connectTimeout CONNECT_TIMEOUT_MS clientId cfg.command cfg.args,
            [Event.connectAttempt clientId], by simp [startClient, h, raceConnect, hc, ht]⟩

theorem startClient_fst_congr (clientId : String) (cfg : Config)
    (d : List (String × String)) (cb : ClientBehavior) (now : Nat) (reg reg' : Registry) :
    (startClient clientId cfg d cb now reg).1 = (startClient clientId cfg d cb now reg').1 := by
  by_cases h : cfg.command = ""
  · simp [startClient, h]
  · rcases hr : raceConnect cb.connect with ⟨perr, pt⟩ | elapsed
    · cases perr <;> simp [startClient, h, hr]
    · simp [startClient, h, hr]

theorem startClient_events (clientId : String) (cfg : Config)
    (d : List (String × String)) (cb : ClientBehavior) (now : Nat) (reg : Registry) :
    (startClient clientId cfg d cb now reg).2.2 =
      if cfg.command = "" then [] else [Event.connectAttempt clientId] := by
  by_cases h : cfg.command = ""
  · simp [startClient, h]
  · rcases hr : raceConnect cb.connect with ⟨perr, pt⟩ | elapsed
    · cases perr <;> simp [startClient, h, hr]
    · simp [startClient, h, hr]

/-! Characterisation of startOne. -/

theorem startOne_skip (d : List (String × String)) (now : Nat) (id : String)
    (cfg : Config) (cb : ClientBehavior) (reg : Registry) (e : Entry)
    (hl : rlookup id reg = some e) (hc : configEq e.config cfg = true) :
    startOne d now id cfg cb reg = (StartOutcome.skipped, reg, []) := by
  simp [startOne, hl, hc]

theorem startOne_ok_eq (d : List (String × String)) (now : Nat) (id : String)
    (cfg : Config) (cb : ClientBehavior) (reg : Registry) (r : StartOk)
    (reg1 : Registry) (evs : List Event)
    (h : startOne d now id cfg cb reg = (StartOutcome.ok r, reg1, evs)) :
    r = { id := id, message := "MCP client started successfully" } ∧
    reg1 = rset id (mkEntry id cfg d cb now) reg := by
  rcases startClient_cases id cfg d cb now reg with hok | ⟨err, evs', he⟩
  · unfold startOne at h
    cases hl : rlookup id reg with
    | none =>
        rw [hl] at h
        simp [hok] at h
        exact ⟨h.1.symm, h.2.1.symm⟩
    | some e =>
        rw [hl] at h
        by_cases hc : configEq e.config cfg
        · simp [hc] at h
        · simp [hc, hok] at h
          exact ⟨h.1.symm, h.2.1.symm⟩
  · unfold startOne at h
    cases hl : rlookup id reg with
    | none =>
        rw [hl] at h
        simp [he] at h
    | some e =>
        rw [hl] at h
        by_cases hc : configEq e.config cfg
        · simp [hc] at h
        · simp [hc, he] at h

theorem startOne_err_eq (d : List (String × String)) (now : Nat) (id : String)
    (cfg : Config) (cb : ClientBehavior) (reg : Registry) (i m : String)
    (reg1 : Registry) (evs : List Event)
    (h : startOne d now id cfg cb reg = (StartOutcome.err i m, reg1, evs)) :
    i = id ∧ reg1 = reg := by
  rcases startClient_cases id cfg d cb now reg with hok | ⟨err, evs', he⟩
  · unfold startOne at h
    cases hl : rlookup id reg with
    | none =>
        rw [hl] at h
        simp [hok] at h
    | some e =>
        rw [hl] at h
        by_cases hc : configEq e.config cfg
        · simp [hc] at h
        · simp [hc, hok] at h
  · unfold startOne at h
    cases hl : rlookup id reg with
    | none =>
        rw [hl] at h
        simp [he] at h
        refine ⟨?_, ?_⟩ <;> simp_all
    | some e =>
        rw [hl] at h
        by_cases hc : configEq e.config cfg
        · simp [hc] at h
        · simp [hc, he] at h
          refine ⟨?_, ?_⟩ <;> simp_all

theorem startOne_frame (d : List (String × String)) (now : Nat) (id : String)
    (cfg : Config) (cb : ClientBehavior) (reg : Registry) (k : String) (h : k ≠ id) :
    rlookup k (startOne d now id cfg cb reg).2.1 = rlookup k reg := by
  rcases startClient_cases id cfg d cb now reg with hok | ⟨err, evs', he⟩
  · unfold startOne
    cases hl : rlookup id reg with
    | none => simp [hok, rlookup_rset_ne k id _ reg h]
    | some e =>
        by_cases hc : configEq e.config cfg
        · simp [hc]
        · simp [hc, hok, rlookup_rset_ne k id _ reg h]
  · unfold startOne
    cases hl : rlookup id reg with
    | none => simp [he]
    | some e =>
        by_cases hc : configEq e.config cfg
        · simp [hc]
        · simp [hc, he]

theorem startClient_cases_all (clientId : String) (cfg : Config)
    (d : List (String × String)) (cb : ClientBehavior) (now : Nat) :
    (∀ reg : Registry, startClient clientId cfg d cb now reg =
      (Except.ok { id := clientId, message := "MCP client started successfully" },
       rset clientId (mkEntry clientId cfg d cb now) reg,
       [Event.connectAttempt clientId])) ∨
    ∃ err evs, ∀ reg : Registry,
      startClient clientId cfg d cb now reg = (Except.error err, reg, evs) := by
  by_cases h : cfg.command = ""
  · exact Or.inr ⟨StartError.commandRequired, [], fun reg => by simp [startClient, h]⟩
  · cases hc : cb.connect with
    | never =>
        exact Or.inr ⟨StartError.connectTimeout CONNECT_TIMEOUT_MS clientId cfg.command cfg.args,
          [Event.connectAttempt clientId], fun reg => by simp [startClient, h, raceConnect, hc]⟩
    | settles errOpt t =>
        by_cases ht : t < CONNECT_TIMEOUT_MS
        · cases errOpt with
          | some m =>
              exact Or.inr ⟨StartError.connectFailed m, [Event.connectAttempt clientId],
                fun reg => by simp [startClient, h, raceConnect, hc, ht]⟩
          | none => exact Or.inl (fun reg => by simp [startClient, h, raceConnect, hc, ht])
        · exact Or.inr ⟨StartError.connectTimeout CONNECT_TIMEOUT_MS clientId cfg.command cfg.args,
            [Event.connectAttempt clientId], fun reg => by simp [startClient, h, raceConnect, hc, ht]⟩

theorem startOne_congr (d : List (String × String)) (now : Nat) (id : String)
    (cfg : Config) (cb : ClientBehavior) (reg reg' : Registry)
    (h : rlookup id reg = rlookup id reg') :
    (startOne d now id cfg cb reg).1 = (startOne d now id cfg cb reg').1 ∧
    rlookup id (startOne d now id cfg cb reg).2.1 =
      rlookup id (startOne d now id cfg cb reg').2.1 := by
  rcases startClient_cases_all id cfg d cb now with hok | ⟨err, evs', he⟩
  · cases hl : rlookup id reg with
    | none =>
        have hl2 : rlookup id reg' = none := by rw [← h, hl]
        simp [startOne, hl, hl2, hok reg, hok reg', rlookup_rset_self]
    | some e =>
        have hl2 : rlookup id reg' = some e := by rw [← h, hl]
        by_cases hc : configEq e.config cfg
        · simp [startOne, hl, hl2, hc, h]
        · simp [startOne, hl, hl2, hc, hok reg, hok reg', rlookup_rset_self]
  · cases hl : rlookup id reg with
    | none =>
        have hl2 : rlookup id reg' = none := by rw [← h, hl]
        simp [startOne, hl, hl2, he reg, he reg', h]
    | some e =>
        have hl2 : rlookup id reg' = some e := by rw [← h, hl]
        by_cases hc : configEq e.config cfg
        · simp [startOne, hl, hl2, hc, h]
        · simp [startOne, hl, hl2, hc, he reg, he reg', h]

/-! Lemmas about startBatch. -/

theorem startBatch_cons_reg (d : List (String × String)) (now : Nat)
    (item : String × Config × ClientBehavior) (rest : List (String × Config × ClientBehavior))
    (reg : Registry) :
    (startBatch d now (item :: rest) reg).2.1 =
      (startBatch d now rest (startOne d now item.1 item.2.1 item.2.2 reg).2.1).2.1 := by
  rcases hstep : startOne d now item.1 item.2.1 item.2.2 reg with ⟨o, reg1, evs⟩
  cases o <;> simp [startBatch, hstep]

theorem startBatch_cons_succ_mem (d : List (String × String)) (now : Nat)
    (item : String × Config × ClientBehavior) (rest : List (String × Config × ClientBehavior))
    (reg : Registry) (x : StartOk)
    (hx : x ∈ (startBatch d now rest
      (startOne d now item.1 item.2.1 item.2.2 reg).2.1).1.success) :
    x ∈ (startBatch d now (item :: rest) reg).1.success := by
  rcases hstep : startOne d now item.1 item.2.1 item.2.2 reg with ⟨o, reg1, evs⟩
  rw [hstep] at hx
  cases o <;> simp [startBatch, hstep] <;> simp [hx]

theorem startBatch_cons_err_mem (d : List (String × String)) (now : Nat)
    (item : String × Config × ClientBehavior) (rest : List (String × Config × ClientBehavior))
    (reg : Registry) (x : String × String)
    (hx : x ∈ (startBatch d now rest
      (startOne d now item.1 item.2.1 item.2.2 reg).2.1).1.errors) :
    x ∈ (startBatch d now (item :: rest) reg).1.errors := by
  rcases hstep : startOne d now item.1 item.2.1 item.2.2 reg with ⟨o, reg1, evs⟩
  rw [hstep] at hx
  cases o <;> simp [startBatch, hstep] <;> simp [hx]

theorem startBatch_frame (d : List (String × String)) (now : Nat)
    (batch : List (String × Config × ClientBehavior)) (reg : Registry) (k : String)
    (h : k ∉ batch.map Prod.fst) :
    rlookup k (startBatch d now batch reg).2.1 = rlookup k reg := by
  induction batch generalizing reg with
  | nil => simp [startBatch]
  | cons item rest ih =>
      simp only [List.map_cons, List.mem_cons, not_or] at h
      obtain ⟨h1, h2⟩ := h
      rw [startBatch_cons_reg, ih _ h2,
        startOne_frame d now item.1 item.2.1 item.2.2 reg k h1]

theorem startBatch_mem (d : List (String × String)) (now : Nat)
    (batch : List (String × Config × ClientBehavior)) (reg : Registry)
    (hnd : (batch.map Prod.fst).Nodup)
    (id : String) (cfg : Config) (cb : ClientBehavior)
    (hmem : (id, cfg, cb) ∈ batch) :
    (∀ r, (startOne d now id cfg cb reg).1 = StartOutcome.ok r →
        r ∈ (startBatch d now batch reg).1.success ∧
        rlookup id (startBatch d now batch reg).2.1 =
          rlookup id (startOne d now id cfg cb reg).2.1) ∧
    (∀ i m, (startOne d now id cfg cb reg).1 = StartOutcome.err i m →
        (i, m) ∈ (startBatch d now batch reg).1.errors ∧
        rlookup id (startBatch d now batch reg).2.1 = rlookup id reg) := by
  induction batch generalizing reg with
  | nil => cases hmem
  | cons item rest ih =>
      simp only [List.map_cons, List.nodup_cons] at hnd
      obtain ⟨hnd1, hnd2⟩ := hnd
      rcases List.mem_cons.mp hmem with heq | hmem2
      · subst heq
        rcases hstep : startOne d now id cfg cb reg with ⟨o, reg1, evs⟩
        constructor
        · intro r hok
          simp at hok
          subst hok
          have hfin : rlookup id (startBatch d now rest reg1).2.1 = rlookup id reg1 :=
            startBatch_frame d now rest reg1 id hnd1
          constructor
          · simp [startBatch, hstep]
          · simp [startBatch_cons_reg, hstep, hfin]
        · intro i m herr
          simp at herr
          subst herr
          have hr1 : reg1 = reg :=
            (startOne_err_eq d now id cfg cb reg i m reg1 evs hstep).2
          have hfin : rlookup id (startBatch d now rest reg1).2.1 = rlookup id reg1 :=
            startBatch_frame d now rest reg1 id hnd1
          constructor
          · simp [startBatch, hstep]
          · subst hr1
            simp [startBatch_cons_reg, hstep, hfin]
      · have hidne : item.1 ≠ id := by
          intro hcontra
          apply hnd1
          rw [hcontra]
          exact List.mem_map_of_mem Prod.fst hmem2
        rcases hstep : startOne d now item.1 item.2.1 item.2.2 reg with ⟨o1, reg1, evs1⟩
        have hlook : rlookup id reg1 = rlookup id reg := by
          have := startOne_frame d now item.1 item.2.1 item.2.2 reg id (Ne.symm hidne)
          rw [hstep] at this
          exact this
        have hcongr := startOne_congr d now id cfg cb reg1 reg hlook
        have ihr := ih reg1 hnd2 hmem2
        constructor
        · intro r hok
          have hok1 : (startOne d now id cfg cb reg1).1 = StartOutcome.ok r := by
            rw [hcongr.1, hok]
          obtain ⟨hmem3, hlook3⟩ := ihr.1 r hok1
          constructor
          · apply startBatch_cons_succ_mem
            rw [hstep]
            exact hmem3
          · rw [startBatch_cons_reg, hstep]
            calc rlookup id (startBatch d now rest reg1).2.1
                = rlookup id (startOne d now id cfg cb reg1).2.1 := hlook3
              _ = rlookup id (startOne d now id cfg cb reg).2.1 := hcongr.2
        · intro i m herr
          have herr1 : (startOne d now id cfg cb reg1).1 = StartOutcome.err i m := by
            rw [hcongr.1, herr]
          obtain ⟨hmem3, hlook3⟩ := ihr.2 i m herr1
          constructor
          · apply startBatch_cons_err_mem
            rw [hstep]
            exact hmem3
          · rw [startBatch_cons_reg, hstep]
            calc rlookup id (startBatch d now rest reg1).2.1
                = rlookup id reg1 := hlook3
              _ = rlookup id reg := hlook

theorem startBatch_skip_silent (d : List (String × String)) (now : Nat)
    (batch : List (String × Config × ClientBehavior)) (reg : Registry)
    (id : String) (e : Entry) (hl : rlookup id reg = some e)
    (hall : ∀ c b, (id, c, b) ∈ batch → configEq e.config c = true) :
    (∀ r, r ∈ (startBatch d now batch reg).1.success → r.id ≠ id) ∧
    (∀ p, p ∈ (startBatch d now batch reg).1.errors → p.1 ≠ id) := by
  induction batch generalizing reg with
  | nil => simp [startBatch]
  | cons item rest ih =>
      by_cases hid : item.1 = id
      · have hitem : item = (id, item.2.1, item.2.2) := by
          rw [← hid]
        have hc : configEq e.config item.2.1 = true := by
          apply hall item.2.1 item.2.2
          rw [← hid]
          exact List.mem_cons_self item rest
        have hskip : startOne d now item.1 item.2.1 item.2.2 reg =
            (StartOutcome.skipped, reg, []) := by
          rw [hid]
          exact startOne_skip d now id item.2.1 item.2.2 reg e hl hc
        have ihr := ih reg hl (fun c b hm => hall c b (List.mem_cons_of_mem item hm))
        constructor
        · intro r hr
          apply ihr.1 r
          rcases hstep2 : startOne d now item.1 item.2.1 item.2.2 reg with ⟨o, reg1, evs⟩
          rw [hskip] at hstep2
          simp [startBatch, hskip] at hr
          exact hr
        · intro p hp
          apply ihr.2 p
          simp [startBatch, hskip] at hp
          exact hp
      · rcases hstep : startOne d now item.1 item.2.1 item.2.2 reg with ⟨o, reg1, evs⟩
        have hl1 : rlookup id reg1 = some e := by
          have := startOne_frame d now item.1 item.2.1 item.2.2 reg id
            (fun hcontra => hid hcontra.symm)
          rw [hstep] at this
          simp at this
          rw [this, hl]
        have ihr := ih reg1 hl1 (fun c b hm => hall c b (List.mem_cons_of_mem item hm))
        constructor
        · intro r hr
          cases o with
          | skipped =>
              apply ihr.1 r
              simp [startBatch, hstep] at hr
              exact hr
          | ok r2 =>
              have hr2 : r2 = { id := item.1, message := "MCP client started successfully" } :=
                (startOne_ok_eq d now item.1 item.2.1 item.2.2 reg r2 reg1 evs hstep).1
              simp [startBatch, hstep] at hr
              rcases hr with hr | hr
              · rw [hr, hr2]
                exact hid
              · exact ihr.1 r hr
          | err i2 m2 =>
              apply ihr.1 r
              simp [startBatch, hstep] at hr
              exact hr
        · intro p hp
          cases o with
          | skipped =>
              apply ihr.2 p
              simp [startBatch, hstep] at hp
              exact hp
          | ok r2 =>
              apply ihr.2 p
              simp [startBatch, hstep] at hp
              exact hp
          | err i2 m2 =>
              have hi2 : i2 = item.1 :=
                (startOne_err_eq d now item.1 item.2.1 item.2.2 reg i2 m2 reg1 evs hstep).1
              simp [startBatch, hstep] at hp
              rcases hp with hp | hp
              · rw [hp]
                simp [hi2]
                exact hid
              · exact ihr.2 p hp

theorem nodup_key_unique (batch : List (String × Config × ClientBehavior))
    (hnd : (batch.map Prod.fst).Nodup) (id : String)
    (x y : Config × ClientBehavior)
    (hx : (id, x) ∈ batch) (hy : (id, y) ∈ batch) : x = y := by
  induction batch with
  | nil => cases hx
  | cons item rest ih =>
      simp only [List.map_cons, List.nodup_cons] at hnd
      obtain ⟨h1, h2⟩ := hnd
      rcases List.mem_cons.mp hx with hxe | hx2
      · rcases List.mem_cons.mp hy with hye | hy2
        · exact congrArg Prod.snd (hxe.trans hye.symm)
        · exfalso
          apply h1
          have hmm : id ∈ rest.map Prod.fst := List.mem_map_of_mem Prod.fst hy2
          rw [← hxe]
          exact hmm
      · rcases List.mem_cons.mp hy with hye | hy2
        · exfalso
          apply h1
          have hmm : id ∈ rest.map Prod.fst := List.mem_map_of_mem Prod.fst hx2
          rw [← hye]
          exact hmm
        · exact ih h2 hx2 hy2

/-! Theorems settling the claims. -/

/-- C1: for every id and config, if startClient fails at any step
(missing command, connect rejection, or connect timeout), the error is
propagated as the result and the clients registry is left unmutated; an
entry is inserted only after connect has succeeded. -/
theorem startClient_failure_leaves_registry_unchanged
    (clientId : String) (cfg : Config) (d : List (String × String))
    (cb : ClientBehavior) (now : Nat) (reg : Registry) (err : StartError)
    (h : (startClient clientId cfg d cb now reg).1 = Except.error err) :
    (startClient clientId cfg d cb now reg).2.1 = reg := by
  rcases startClient_cases_all clientId cfg d cb now with hok | ⟨err2, evs, he⟩
  · rw [hok reg] at h
    simp at h
  · rw [he reg]

theorem startClient_failure_leaves_registry_unchanged_witness :
    (startClient "a" demoCfgEmpty [] demoGood 0 []).1 =
      Except.error StartError.commandRequired ∧
    (startClient "a" demoCfgEmpty [] demoGood 0 []).2.1 = [] :=
  ⟨rfl,
   startClient_failure_leaves_registry_unchanged "a" demoCfgEmpty [] demoGood 0 []
     StartError.commandRequired rfl⟩

/-- C5: a start whose connect never settles fails with the connection
timeout error at the fixed five-minute bound, the error carries the
elapsed time, id, command and args, no kill of the in-flight connect
attempt is emitted, and no entry is registered. -/
theorem startSession_connect_timeout
    (clientId : String) (cfg : Config) (d : List (String × String))
    (cb : ClientBehavior) (now : Nat) (reg : Registry)
    (h1 : cfg.command ≠ "") (h2 : cb.connect = ConnectBehavior.never) :
    startClient clientId cfg d cb now reg =
      (Except.error
        (StartError.connectTimeout CONNECT_TIMEOUT_MS clientId cfg.command cfg.args),
       reg, [Event.connectAttempt clientId]) ∧
    CONNECT_TIMEOUT_MS = 5 * 60 * 1000 ∧
    Event.killProcess clientId ∉ (startClient clientId cfg d cb now reg).2.2 := by
  have hmain : startClient clientId cfg d cb now reg =
      (Except.error
        (StartError.connectTimeout CONNECT_TIMEOUT_MS clientId cfg.command cfg.args),
       reg, [Event.connectAttempt clientId]) := by
    simp [startClient, h1, raceConnect, h2]
  refine ⟨hmain, by decide, ?_⟩
  rw [hmain]
  simp

theorem startSession_connect_timeout_witness :
    startClient "a" demoConfigB [] demoNever 0 [] =
      (Except.error (StartError.connectTimeout CONNECT_TIMEOUT_MS "a"
        demoConfigB.command demoConfigB.args),
       [], [Event.connectAttempt "a"]) ∧
    CONNECT_TIMEOUT_MS = 300000 :=
  ⟨(startSession_connect_timeout "a" demoConfigB [] demoNever 0 []
      (by decide) (by decide)).1,
   by decide⟩

/-- C7: the transport is constructed with no explicit environment when
the caller env mapping is empty, and with the platform default
environment merged with and overridden by the caller keys when the env
mapping is non-empty. -/
theorem transport_env_merge (cfg : Config) (d : List (String × String)) :
    (cfg.env = [] → (mkTransport cfg d).env = none) ∧
    (cfg.env ≠ [] →
       (mkTransport cfg d).env = some (mergeEnv d cfg.env) ∧
       ∀ k, envLookup k (mergeEnv d cfg.env) =
         match envLookup k cfg.env with
         | some v => some v
         | none => envLookup k d) := by
  constructor
  · intro h
    simp [mkTransport, h]
  · intro h
    refine ⟨?_, fun k => envLookup_mergeEnv k d cfg.env⟩
    have hlen : 0 < cfg.env.length := List.length_pos.mpr h
    simp [mkTransport, hlen]

theorem transport_env_merge_witness :
    (mkTransport demoConfigB [("PATH", "/bin")]).env = none ∧
    (mkTransport demoConfigA [("PATH", "/bin"), ("A", "0")]).env =
      some (mergeEnv [("PATH", "/bin"), ("A", "0")] demoConfigA.env) ∧
    envLookup "A" (mergeEnv [("PATH", "/bin"), ("A", "0")] demoConfigA.env) = some "1" ∧
    envLookup "PATH" (mergeEnv [("PATH", "/bin"), ("A", "0")] demoConfigA.env) =
      some "/bin" :=
  ⟨(transport_env_merge demoConfigB [("PATH", "/bin")]).1 (by decide),
   ((transport_env_merge demoConfigA [("PATH", "/bin"), ("A", "0")]).2 (by decide)).1,
   by decide, by decide⟩

/-- C2: after a successful start of id with config, a second start of id
with a structurally unchanged config (args order-sensitive, env key
order irrelevant, as computed by configEq) is a no-op: exactly the one
entry from the first call is registered, and the second call returns
skipped with the registry unchanged and no close or connect events. -/
theorem startSession_idempotent_on_equal_config
    (d : List (String × String)) (now now2 : Nat) (id : String)
    (cfg cfg2 : Config) (cb cb2 : ClientBehavior) (reg reg1 : Registry)
    (r : StartOk) (evs : List Event)
    (h1 : startOne d now id cfg cb reg = (StartOutcome.ok r, reg1, evs))
    (h2 : configEq cfg cfg2 = true) :
    startOne d now2 id cfg2 cb2 reg1 = (StartOutcome.skipped, reg1, []) ∧
    rlookup id reg1 = some (mkEntry id cfg d cb now) := by
  have hok := startOne_ok_eq d now id cfg cb reg r reg1 evs h1
  have hreg : rlookup id reg1 = some (mkEntry id cfg d cb now) := by
    rw [hok.2]
    exact rlookup_rset_self id (mkEntry id cfg d cb now) reg
  refine ⟨?_, hreg⟩
  exact startOne_skip d now2 id cfg2 cb2 reg1 (mkEntry id cfg d cb now) hreg h2

theorem startSession_idempotent_on_equal_config_witness :
    startOne [] 1 "a" demoConfigAperm demoBadClose
        [("a", mkEntry "a" demoConfigA [] demoGood 0)] =
      (StartOutcome.skipped, [("a", mkEntry "a" demoConfigA [] demoGood 0)], []) ∧
    rlookup "a" [("a", mkEntry "a" demoConfigA [] demoGood 0)] =
      some (mkEntry "a" demoConfigA [] demoGood 0) :=
  startSession_idempotent_on_equal_config [] 0 1 "a" demoConfigA demoConfigAperm
    demoGood demoBadClose [] [("a", mkEntry "a" demoConfigA [] demoGood 0)]
    { id := "a", message := "MCP client started successfully" }
    [Event.connectAttempt "a"] (by decide) (by with_unfolding_all rfl)

/-- C3: starting id while an entry with a different config exists closes
the old entry's client exactly once, before anything else (in
particular before the new registration), a failing close does not block
the replacement (no hypothesis on the old client's close behaviour),
and on success the final registry entry's stored config equals the new
config. -/
theorem startSession_replace_on_change
    (d : List (String × String)) (now : Nat) (id : String) (cfgB : Config)
    (cb : ClientBehavior) (reg : Registry) (e : Entry)
    (h1 : rlookup id reg = some e) (h2 : configEq e.config cfgB = false) :
    (startOne d now id cfgB cb reg).2.2.head? =
      some (Event.closeCalled id e.closeErr.isNone) ∧
    (startOne d now id cfgB cb reg).2.2.filter Event.isClose =
      [Event.closeCalled id e.closeErr.isNone] ∧
    (∀ r, (startOne d now id cfgB cb reg).1 = StartOutcome.ok r →
       rlookup id (startOne d now id cfgB cb reg).2.1 =
         some (mkEntry id cfgB d cb now)) ∧
    (mkEntry id cfgB d cb now).config = cfgB := by
  have hev : (startOne d now id cfgB cb reg).2.2 =
      Event.closeCalled id e.closeErr.isNone :: (startClient id cfgB d cb now reg).2.2 := by
    rcases hs : startClient id cfgB d cb now reg with ⟨res, reg2, evs2⟩
    cases res <;> simp [startOne, h1, h2, hs]
  have hevs := startClient_events id cfgB d cb now reg
  refine ⟨by rw [hev]; rfl, ?_, ?_, rfl⟩
  · rw [hev]
    by_cases hcmd : cfgB.command = "" <;>
      simp [hevs, hcmd, List.filter, Event.isClose]
  · intro r hok
    rcases hstep : startOne d now id cfgB cb reg with ⟨o, reg1, evs⟩
    rw [hstep] at hok
    simp at hok
    subst hok
    have := startOne_ok_eq d now id cfgB cb reg r reg1 evs hstep
    simp only [this.2]
    exact rlookup_rset_self id (mkEntry id cfgB d cb now) reg

theorem startSession_replace_on_change_witness :
    (startOne [] 5 "a" demoConfigB demoGood demoReg).2.2.head? =
      some (Event.closeCalled "a" false) ∧
    rlookup "a" (startOne [] 5 "a" demoConfigB demoGood demoReg).2.1 =
      some (mkEntry "a" demoConfigB [] demoGood 5) :=
  ⟨(startSession_replace_on_change [] 5 "a" demoConfigB demoGood demoReg
      demoEntryBadClose (by decide) (by with_unfolding_all rfl)).1,
   (startSession_replace_on_change [] 5 "a" demoConfigB demoGood demoReg
      demoEntryBadClose (by decide) (by with_unfolding_all rfl)).2.2.1
     { id := "a", message := "MCP client started successfully" }
     (by with_unfolding_all rfl)⟩

/-- C4 counterexample: on a registry whose single entry's close()
rejects, stopSession reports the close failure but the entry is NOT
removed: the subsequent lookup still returns it, refuting the claim
that removal is unconditional once close has been attempted. -/
theorem stopSession_close_failure_keeps_entry_counterexample :
    (stopSession demoReg "a").2.1 = StopResult.closeFailed "close boom" ∧
    ¬ rlookup "a" (stopSession demoReg "a").1 = none := by
  refine ⟨by decide, by decide⟩

/-- C4 amended: stopSession on an existing entry removes it from the
registry only when the client's close() resolves; when close() throws,
the failure is reported and the entry remains registered (a subsequent
lookup still returns it). -/
theorem stopSession_removes_only_when_close_succeeds
    (reg : Registry) (id : String) (e : Entry) (h : rlookup id reg = some e) :
    (e.closeErr = none →
       stopSession reg id = (rerase id reg, StopResult.ok, [Event.closeCalled id true]) ∧
       rlookup id (stopSession reg id).1 = none) ∧
    (∀ m, e.closeErr = some m →
       stopSession reg id = (reg, StopResult.closeFailed m, [Event.closeCalled id false]) ∧
       rlookup id (stopSession reg id).1 = some e) := by
  constructor
  · intro hc
    have heq : stopSession reg id =
        (rerase id reg, StopResult.ok, [Event.closeCalled id true]) := by
      simp [stopSession, h, hc]
    refine ⟨heq, ?_⟩
    rw [heq]
    exact rlookup_rerase_self id reg
  · intro m hm
    have heq : stopSession reg id =
        (reg, StopResult.closeFailed m, [Event.closeCalled id false]) := by
      simp [stopSession, h, hm]
    refine ⟨heq, ?_⟩
    rw [heq]
    exact h

theorem stopSession_removes_only_when_close_succeeds_witness :
    rlookup "a" (stopSession demoReg "a").1 = some demoEntryBadClose ∧
    rlookup "a" (stopSession demoRegGood "a").1 = none :=
  ⟨((stopSession_removes_only_when_close_succeeds demoReg "a" demoEntryBadClose
      (by decide)).2 "close boom" (by decide)).2,
   ((stopSession_removes_only_when_close_succeeds demoRegGood "a" demoEntryGood
      (by decide)).1 (by decide)).2⟩

/-- C8: for an id with no registry entry, restartSession, invokeTool
(with a tool name supplied) and stopSession all fail with the
not-found error and leave the registry unchanged. -/
theorem unknown_id_uniformly_rejected
    (d : List (String × String)) (now : Nat) (cb : ClientBehavior)
    (reg : Registry) (id name : String)
    (h1 : rlookup id reg = none) (h2 : name ≠ "") :
    restartSession d now cb reg id = (reg, RestartResult.notFound, []) ∧
    invokeTool reg id name = InvokeResult.notFound ∧
    stopSession reg id = (reg, StopResult.notFound, []) := by
  refine ⟨by simp [restartSession, h1], by simp [invokeTool, h2, h1],
    by simp [stopSession, h1]⟩

theorem unknown_id_uniformly_rejected_witness :
    restartSession [] 0 demoGood demoReg "zzz" = (demoReg, RestartResult.notFound, []) ∧
    invokeTool demoReg "zzz" "sometool" = InvokeResult.notFound ∧
    stopSession demoReg "zzz" = (demoReg, StopResult.notFound, []) :=
  unknown_id_uniformly_rejected [] 0 demoGood demoReg "zzz" "sometool"
    (by decide) (by decide)

/-- C9 counterexample: on a registry whose entry's close() rejects,
restartSession fails with the close error, the entry stays registered,
and no new client is created (no connect attempt), refuting the claim
that a close failure does not prevent the restart. -/
theorem restart_close_failure_blocks_restart_counterexample :
    (restartSession [] 0 demoGood demoReg "a").2.1 = RestartResult.failed "close boom" ∧
    (restartSession [] 0 demoGood demoReg "a").1 = demoReg ∧
    Event.connectAttempt "a" ∉ (restartSession [] 0 demoGood demoReg "a").2.2 := by
  refine ⟨by decide, by decide, by decide⟩

/-- C9 amended: restartSession on an existing entry closes the current
client, and a close failure aborts the restart: the registry keeps the
entry and no new client is created.  Only when close resolves is the
entry removed and the start procedure re-run with the stored original
config, unconditionally recreating the client (no equal-config
shortcut: a connect attempt happens whenever the stored command is
present). -/
theorem restartSession_close_failure_aborts
    (d : List (String × String)) (now : Nat) (cb : ClientBehavior)
    (reg : Registry) (id : String) (e : Entry) (h : rlookup id reg = some e) :
    (∀ m, e.closeErr = some m →
       restartSession d now cb reg id =
         (reg, RestartResult.failed m, [Event.closeCalled id false]) ∧
       Event.connectAttempt id ∉ (restartSession d now cb reg id).2.2) ∧
    (e.closeErr = none → e.config.command ≠ "" →
       Event.connectAttempt id ∈ (restartSession d now cb reg id).2.2 ∧
       (connectOk cb = true →
          restartSession d now cb reg id =
            (rset id (mkEntry id e.config d cb now) (rerase id reg),
             RestartResult.ok { id := id, message := "MCP client started successfully" },
             [Event.closeCalled id true, Event.connectAttempt id]) ∧
          rlookup id (restartSession d now cb reg id).1 =
            some (mkEntry id e.config d cb now))) := by
  constructor
  · intro m hm
    have heq : restartSession d now cb reg id =
        (reg, RestartResult.failed m, [Event.closeCalled id false]) := by
      simp [restartSession, h, hm]
    refine ⟨heq, ?_⟩
    rw [heq]
    simp
  · intro hc hcmd
    constructor
    · rcases hs : startClient id e.config d cb now (rerase id reg) with ⟨res, reg2, evs2⟩
      have hev : evs2 = [Event.connectAttempt id] := by
        have := startClient_events id e.config d cb now (rerase id reg)
        rw [hs] at this
        simpa [hcmd] using this
      cases res <;> simp [restartSession, h, hc, hs, hev]
    · intro hok
      have hs := startClient_ok_eq id e.config d cb now (rerase id reg) hcmd hok
      have heq : restartSession d now cb reg id =
          (rset id (mkEntry id e.config d cb now) (rerase id reg),
           RestartResult.ok { id := id, message := "MCP client started successfully" },
           [Event.closeCalled id true, Event.connectAttempt id]) := by
        simp [restartSession, h, hc, hs]
      refine ⟨heq, ?_⟩
      rw [heq]
      exact rlookup_rset_self id (mkEntry id e.config d cb now) (rerase id reg)

theorem restartSession_close_failure_aborts_witness :
    restartSession [] 9 demoGood demoRegGood "a" =
      (rset "a" (mkEntry "a" demoConfigA [] demoGood 9) (rerase "a" demoRegGood),
       RestartResult.ok { id := "a", message := "MCP client started successfully" },
       [Event.closeCalled "a" true, Event.connectAttempt "a"]) ∧
    rlookup "a" (restartSession [] 9 demoGood demoRegGood "a").1 =
      some (mkEntry "a" demoConfigA [] demoGood 9) :=
  ((restartSession_close_failure_aborts [] 9 demoGood demoRegGood "a" demoEntryGood
      (by decide)).2 (by decide) (by decide)).2 (by decide)

/-- C6: in a batch start over distinct ids, each id's start is processed
independently: an id whose own startOne fails contributes its error
entry to the errors list (never thrown) and leaves its registry binding
untouched, while an id whose own startOne succeeds appears in the
success list with its registration intact, regardless of the other
ids' outcomes. -/
theorem startBatch_isolation (d : List (String × String)) (now : Nat)
    (batch : List (String × Config × ClientBehavior)) (reg : Registry)
    (hnd : (batch.map Prod.fst).Nodup)
    (id : String) (cfg : Config) (cb : ClientBehavior)
    (hmem : (id, cfg, cb) ∈ batch) :
    (∀ r, (startOne d now id cfg cb reg).1 = StartOutcome.ok r →
        r ∈ (startBatch d now batch reg).1.success ∧
        rlookup id (startBatch d now batch reg).2.1 =
          rlookup id (startOne d now id cfg cb reg).2.1) ∧
    (∀ i m, (startOne d now id cfg cb reg).1 = StartOutcome.err i m →
        (i, m) ∈ (startBatch d now batch reg).1.errors ∧
        rlookup id (startBatch d now batch reg).2.1 = rlookup id reg) :=
  startBatch_mem d now batch reg hnd id cfg cb hmem

theorem startBatch_isolation_witness :
    ("bad", "Failed to initialize: Command is required") ∈
      (startBatch [] 0 demoBatch []).1.errors ∧
    rlookup "bad" (startBatch [] 0 demoBatch []).2.1 = rlookup "bad" ([] : Registry) :=
  (startBatch_isolation [] 0 demoBatch [] (by decide) "bad" demoCfgEmpty demoGood
      (by decide)).2 "bad" "Failed to initialize: Command is required" (by decide)

/-- C10: in a batch start over distinct ids, an id whose submitted
config is structurally identical to its existing entry's config is
silently omitted from the response: no element of the success list and
no element of the errors list carries that id. -/
theorem batch_equal_config_silently_omitted (d : List (String × String)) (now : Nat)
    (batch : List (String × Config × ClientBehavior)) (reg : Registry)
    (hnd : (batch.map Prod.fst).Nodup)
    (id : String) (cfg : Config) (cb : ClientBehavior)
    (hmem : (id, cfg, cb) ∈ batch)
    (e : Entry) (hl : rlookup id reg = some e)
    (heq : configEq e.config cfg = true) :
    (∀ r, r ∈ (startBatch d now batch reg).1.success → r.id ≠ id) ∧
    (∀ p, p ∈ (startBatch d now batch reg).1.errors → p.1 ≠ id) := by
  apply startBatch_skip_silent d now batch reg id e hl
  intro c b hm
  have huniq : (c, b) = (cfg, cb) :=
    nodup_key_unique batch hnd id (c, b) (cfg, cb) hm hmem
  have hcc : c = cfg := congrArg Prod.fst huniq
  rw [hcc]
  exact heq

theorem batch_equal_config_silently_omitted_witness :
    (startBatch [] 0 demoBatch2 demoRegGood).1.success =
      [{ id := "c", message := "MCP client started successfully" }] ∧
    (startBatch [] 0 demoBatch2 demoRegGood).1.errors = [] ∧
    ({ id := "c", message := "MCP client started successfully" } : StartOk).id ≠ "a" := by
  have hsucc : (startBatch [] 0 demoBatch2 demoRegGood).1.success =
      [{ id := "c", message := "MCP client started successfully" }] := by
    with_unfolding_all rfl
  refine ⟨hsucc, by with_unfolding_all rfl, ?_⟩
  apply (batch_equal_config_silently_omitted [] 0 demoBatch2 demoRegGood (by decide)
      "a" demoConfigAperm demoGood (by decide) demoEntryGood (by decide)
      (by with_unfolding_all rfl)).1
  rw [hsucc]
  exact List.mem_singleton_self _
